import Mathlib

/-
  Verification of the `Games` endpoint group of the lichees_python_SDK
  repository (src/lichess_client/endpoints/games.py), embedded shallowly:
  each endpoint method is translated to a pure Lean function that builds
  the HTTP request description and applies the client's transport call.
-/

namespace LichessSDK

/-- HTTP verb enumeration (`RequestMethods` in lichess_client.utils.enums).
Only GET is used by the games endpoint group. -/
inductive RequestMethods
  | GET
  | POST
deriving DecidableEq, Repr

/-- Modelled from the spec: `StatusTypes` (response outcome enumeration) is
declared in lichess_client.utils.enums, which is not under src/; the spec
lists the outcome categories SUCCESS, FAILURE, ERROR. -/
inductive StatusTypes
  | SUCCESS
  | FAILURE
  | ERROR
deriving DecidableEq, Repr

/-- Modelled from the spec: the inner entity of the Response envelope,
holding a status and the decoded content. The content is opaque to the
games endpoint layer and is modelled as a string payload. -/
structure ResponseEntity where
  status : StatusTypes
  content : String
deriving DecidableEq, Repr

/-- Modelled from the spec: the uniform Response envelope
`\x7b status, entity: \x7b status, content \x7d \x7d` produced by the
Transport and returned to the caller. lichess_client.helpers is not
under src/. -/
structure Response where
  status : StatusTypes
  entity : ResponseEntity
deriving DecidableEq, Repr

/-- Modelled from the spec: `VariantTypes` is a closed enumeration of game
variant/speed categories whose members carry string values
(`entry.value` in games.py). The member list is not under src/, so a
member is modelled by the string value it carries. -/
structure VariantTypes where
  value : String
deriving DecidableEq, Repr

/-- Modelled from the spec: `ColorType` is a closed enumeration (player
color filter) whose members carry string values (`color.value` in
games.py). The member list is not under src/, so a member is modelled by
the string value it carries. -/
structure ColorType where
  value : String
deriving DecidableEq, Repr

/-- A value stored in the query-parameter map built by the games endpoint
methods: in games.py the dict values are strings, ints (since/until/limit
when supplied) or booleans (rated/analysed when supplied). -/
inductive ParamValue
  | str (s : String)
  | int (n : Int)
  | bool (b : Bool)
deriving DecidableEq, Repr

/-- A Python dict with string keys, modelled as an insertion-ordered
association list; lookup returns the first binding of a key. -/
def lookupParam : List (String × ParamValue) → String → Option ParamValue
  | [], _ => none
  | (k, v) :: rest, key => if key = k then some v else lookupParam rest key

/-- The description of one HTTP request handed to the transport:
method, URL, header map and query-parameter map. -/
structure HttpRequest where
  method : RequestMethods
  url : String
  headers : List (String × String)
  params : List (String × ParamValue)
deriving DecidableEq, Repr

/-- Modelled from the spec: the client facade (`BaseClient`, not under
src/) exposes the two Transport calls used by games.py: `request`
(single-shot) and `request_stream` (streaming). Each maps a request
description to the Response the Transport produces. -/
structure BaseClient where
  request : HttpRequest → Response
  request_stream : HttpRequest → Response

/-- `json.dumps` applied to a Python boolean, as used for the `ongoing`
parameter in games.py: it yields the text `true` or `false`. -/
def json_dumps_bool (b : Bool) : String :=
  if b then "true" else "false"

/-- Modelled from the spec: lichess_client.utils.hrefs is not under src/;
the spec documents the endpoint `GET /game/export/\x7bgameId\x7d`, and
`Games.export_one_game` fills the gameId placeholder of
`GAMES_EXPORT_ONE_URL` via `str.format`. -/
def GAMES_EXPORT_ONE_URL_format (gameId : String) : String :=
  "game/export/" ++ gameId

/-- Modelled from the spec: lichess_client.utils.hrefs is not under src/;
the spec documents the user endpoint as `GET /games/user/\x7busername\x7d`,
and `Games.export_games_of_a_user` fills the username placeholder of
`GAMES_EXPORT_USER_URL` via `str.format`. -/
def GAMES_EXPORT_USER_URL_format (username : String) : String :=
  "games/user/" ++ username

/-- The `variant` argument of `export_games_of_a_user`: Python type
`Union[VariantTypes, List[VariantTypes]]`. -/
inductive VariantArg
  | single (v : VariantTypes)
  | list (vs : List VariantTypes)
deriving DecidableEq, Repr

/-- The variant normalization at the top of `export_games_of_a_user`
(games.py lines 132-135): a list of enum members is joined on commas over
their string values, a single member becomes its string value, and an
absent argument stays absent. -/
def normalizeVariant : Option VariantArg → Option String
  | some (VariantArg.list vs) => some (String.intercalate "," (vs.map VariantTypes.value))
  | some (VariantArg.single v) => some v.value
  | none => none

/-- The fixed header map built by both implemented endpoint methods
(games.py lines 39-41 and 137-139). -/
def Games.json_headers : List (String × String) :=
  [("Content-Type", "application/json")]

/-- The fixed query-parameter map of `export_one_game`
(games.py lines 42-50). -/
def Games.export_one_game_parameters : List (String × ParamValue) :=
  [("moves", ParamValue.str "true"),
   ("pgnInJson", ParamValue.str "false"),
   ("tags", ParamValue.str "true"),
   ("clocks", ParamValue.str "true"),
   ("evals", ParamValue.str "true"),
   ("opening", ParamValue.str "true"),
   ("literate", ParamValue.str "true")]

/-- The single request description `export_one_game` hands to
`self._client.request` (games.py lines 51-54). -/
def Games.export_one_game_request (game_id : String) : HttpRequest :=
  ⟨RequestMethods.GET,
   GAMES_EXPORT_ONE_URL_format game_id,
   Games.json_headers,
   Games.export_one_game_parameters⟩

/-- `Games.export_one_game` (games.py lines 19-55): builds the fixed
headers and parameters, issues one single-shot request through the
client, and returns the Response unchanged. -/
def Games.export_one_game (client : BaseClient) (game_id : String) : Response :=
  client.request (Games.export_one_game_request game_id)

/-- The query-parameter map built by `export_games_of_a_user`
(games.py lines 140-158), in dict insertion order; the `vs` key is
appended at the end only when the `vs` argument is supplied. -/
def Games.export_games_of_a_user_parameters
    (since : Option Int) (until_ : Option Int) (limit : Option Int)
    (vs : Option String) (rated : Option Bool) (variant : Option VariantArg)
    (color : Option ColorType) (analysed : Option Bool) (ongoing : Bool) :
    List (String × ParamValue) :=
  let base : List (String × ParamValue) :=
    [("since", match since with
        | none => ParamValue.str "Account creation date"
        | some n => ParamValue.int n),
     ("until", match until_ with
        | none => ParamValue.str "Now"
        | some n => ParamValue.int n),
     ("max", match limit with
        | none => ParamValue.str "null"
        | some n => ParamValue.int n),
     ("rated", match rated with
        | none => ParamValue.str "null"
        | some b => ParamValue.bool b),
     ("perfType", match normalizeVariant variant with
        | none => ParamValue.str "null"
        | some s => ParamValue.str s),
     ("color", match color with
        | none => ParamValue.str "null"
        | some c => ParamValue.str c.value),
     ("analysed", match analysed with
        | none => ParamValue.str "null"
        | some b => ParamValue.bool b),
     ("ongoing", ParamValue.str (json_dumps_bool ongoing)),
     ("moves", ParamValue.str "true"),
     ("pgnInJson", ParamValue.str "false"),
     ("tags", ParamValue.str "true"),
     ("clocks", ParamValue.str "true"),
     ("evals", ParamValue.str "true"),
     ("opening", ParamValue.str "true")]
  match vs with
  | none => base
  | some v => base ++ [("vs", ParamValue.str v)]

/-- The single request description `export_games_of_a_user` hands to
`self._client.request_stream` (games.py lines 160-163). -/
def Games.export_games_of_a_user_request
    (username : String)
    (since : Option Int) (until_ : Option Int) (limit : Option Int)
    (vs : Option String) (rated : Option Bool) (variant : Option VariantArg)
    (color : Option ColorType) (analysed : Option Bool) (ongoing : Bool) :
    HttpRequest :=
  ⟨RequestMethods.GET,
   GAMES_EXPORT_USER_URL_format username,
   Games.json_headers,
   Games.export_games_of_a_user_parameters
     since until_ limit vs rated variant color analysed ongoing⟩

/-- `Games.export_games_of_a_user` (games.py lines 57-164): normalizes the
variant argument, builds headers and parameters, issues one streaming
request through the client, and returns the Response unchanged. -/
def Games.export_games_of_a_user
    (client : BaseClient) (username : String)
    (since : Option Int) (until_ : Option Int) (limit : Option Int)
    (vs : Option String) (rated : Option Bool) (variant : Option VariantArg)
    (color : Option ColorType) (analysed : Option Bool) (ongoing : Bool) :
    Response :=
  client.request_stream
    (Games.export_games_of_a_user_request
      username since until_ limit vs rated variant color analysed ongoing)

/-- `Games.export_games_by_ids` (games.py lines 166-167): the body is a
bare `pass`, so the call produces no Response at all — in Python it
silently returns None, modelled as `none`. -/
def Games.export_games_by_ids : Option Response := none

/-- `Games.stream_current_games` (games.py lines 169-170): bare `pass`
body, silently returns None. -/
def Games.stream_current_games : Option Response := none

/-- `Games.get_ongoing_games` (games.py lines 172-173): bare `pass` body,
silently returns None. -/
def Games.get_ongoing_games : Option Response := none

/-- `Games.get_current_tv_games` (games.py lines 175-176): bare `pass`
body, silently returns None. -/
def Games.get_current_tv_games : Option Response := none

/-- C1: invoking any of the four stub operations of games.py
(export_games_by_ids, stream_current_games, get_ongoing_games,
get_current_tv_games) silently produces no Response at all — each body is
a bare `pass`, so the call returns None instead of failing fast with a
"not implemented" error kind. -/
theorem C1_stub_operations_silently_return_none :
    Games.export_games_by_ids = none ∧
    Games.stream_current_games = none ∧
    Games.get_ongoing_games = none ∧
    Games.get_current_tv_games = none :=
  ⟨rfl, rfl, rfl, rfl⟩

/-- C2 counterexample: at the concrete game id "q7zvsdUF", the parameter
map sent by export_one_game binds the key pgnInJson to the string
"false", not "true", refuting the claim that every one of the seven fixed
keys is mapped to "true". -/
theorem C2_counterexample_pgnInJson_not_true :
    lookupParam (Games.export_one_game_request "q7zvsdUF").params "pgnInJson"
        = some (ParamValue.str "false") ∧
      ParamValue.str "false" ≠ ParamValue.str "true" := by
  refine ⟨rfl, ?_⟩
  decide

/-- C2 (amended): for every game_id, the parameter map sent by
export_one_game contains exactly the seven fixed keys moves, pgnInJson,
tags, clocks, evals, opening, literate; the six keys moves, tags, clocks,
evals, opening, literate are mapped to the string "true", while pgnInJson
is mapped to the string "false". -/
theorem C2_export_one_game_fixed_parameter_map (game_id : String) :
    (Games.export_one_game_request game_id).params.map Prod.fst
        = ["moves", "pgnInJson", "tags", "clocks", "evals", "opening", "literate"] ∧
      lookupParam (Games.export_one_game_request game_id).params "moves"
        = some (ParamValue.str "true") ∧
      lookupParam (Games.export_one_game_request game_id).params "tags"
        = some (ParamValue.str "true") ∧
      lookupParam (Games.export_one_game_request game_id).params "clocks"
        = some (ParamValue.str "true") ∧
      lookupParam (Games.export_one_game_request game_id).params "evals"
        = some (ParamValue.str "true") ∧
      lookupParam (Games.export_one_game_request game_id).params "opening"
        = some (ParamValue.str "true") ∧
      lookupParam (Games.export_one_game_request game_id).params "literate"
        = some (ParamValue.str "true") ∧
      lookupParam (Games.export_one_game_request game_id).params "pgnInJson"
        = some (ParamValue.str "false") :=
  ⟨rfl, rfl, rfl, rfl, rfl, rfl, rfl, rfl⟩

/-- C3: in export_games_of_a_user the six optional filters since, until,
limit, rated, variant, analysed are never omitted from the parameter map:
when absent, the key carries its documented sentinel ("Account creation
date" for since, "Now" for until, "null" for max, rated, perfType,
analysed); when supplied, the supplied value appears in place of the
sentinel. Holds for every choice of the remaining arguments. -/
theorem C3_optional_filters_sentinels_and_supplied_values
    (username : String) (s u l : Int) (ra an : Bool) (v : VariantTypes)
    (vs : Option String) (c : Option ColorType) (g : Bool) :
    (lookupParam (Games.export_games_of_a_user_request
          username none none none vs none none c none g).params "since"
        = some (ParamValue.str "Account creation date") ∧
      lookupParam (Games.export_games_of_a_user_request
          username none none none vs none none c none g).params "until"
        = some (ParamValue.str "Now") ∧
      lookupParam (Games.export_games_of_a_user_request
          username none none none vs none none c none g).params "max"
        = some (ParamValue.str "null") ∧
      lookupParam (Games.export_games_of_a_user_request
          username none none none vs none none c none g).params "rated"
        = some (ParamValue.str "null") ∧
      lookupParam (Games.export_games_of_a_user_request
          username none none none vs none none c none g).params "perfType"
        = some (ParamValue.str "null") ∧
      lookupParam (Games.export_games_of_a_user_request
          username none none none vs none none c none g).params "analysed"
        = some (ParamValue.str "null")) ∧
    (lookupParam (Games.export_games_of_a_user_request
          username (some s) (some u) (some l) vs (some ra)
          (some (VariantArg.single v)) c (some an) g).params "since"
        = some (ParamValue.int s) ∧
      lookupParam (Games.export_games_of_a_user_request
          username (some s) (some u) (some l) vs (some ra)
          (some (VariantArg.single v)) c (some an) g).params "until"
        = some (ParamValue.int u) ∧
      lookupParam (Games.export_games_of_a_user_request
          username (some s) (some u) (some l) vs (some ra)
          (some (VariantArg.single v)) c (some an) g).params "max"
        = some (ParamValue.int l) ∧
      lookupParam (Games.export_games_of_a_user_request
          username (some s) (some u) (some l) vs (some ra)
          (some (VariantArg.single v)) c (some an) g).params "rated"
        = some (ParamValue.bool ra) ∧
      lookupParam (Games.export_games_of_a_user_request
          username (some s) (some u) (some l) vs (some ra)
          (some (VariantArg.single v)) c (some an) g).params "perfType"
        = some (ParamValue.str v.value) ∧
      lookupParam (Games.export_games_of_a_user_request
          username (some s) (some u) (some l) vs (some ra)
          (some (VariantArg.single v)) c (some an) g).params "analysed"
        = some (ParamValue.bool an)) := by
  cases vs <;>
    simp [Games.export_games_of_a_user_request,
      Games.export_games_of_a_user_parameters, normalizeVariant, lookupParam]

/-- C4: in export_games_of_a_user, a non-empty list of VariantTypes
members passed as variant serializes perfType to the single string
joining their string values with commas (spelled out for the two-member
example), and a single member serializes to its bare string value. -/
theorem C4_variant_list_joined_and_single_bare
    (username : String) (a b : VariantTypes) (rest : List VariantTypes)
    (v : VariantTypes) :
    lookupParam (Games.export_games_of_a_user_request
          username none none none none none
          (some (VariantArg.list (a :: rest))) none none false).params "perfType"
        = some (ParamValue.str
            (String.intercalate "," ((a :: rest).map VariantTypes.value))) ∧
      lookupParam (Games.export_games_of_a_user_request
          username none none none none none
          (some (VariantArg.list [a, b])) none none false).params "perfType"
        = some (ParamValue.str (a.value ++ "," ++ b.value)) ∧
      lookupParam (Games.export_games_of_a_user_request
          username none none none none none
          (some (VariantArg.single v)) none none false).params "perfType"
        = some (ParamValue.str v.value) := by
  refine ⟨?_, ?_, ?_⟩ <;>
    simp [Games.export_games_of_a_user_request,
      Games.export_games_of_a_user_parameters, normalizeVariant, lookupParam,
      String.intercalate, String.intercalate.go]

/-- C5: in export_games_of_a_user, the key vs appears in the parameter
map exactly when the vs argument is supplied: with vs supplied the key
carries the supplied opponent name, and with vs absent the key is not in
the map at all (no sentinel value), for every choice of the remaining
arguments. -/
theorem C5_vs_key_present_iff_supplied
    (username opponent : String) (s u l : Option Int) (ra an : Option Bool)
    (v : Option VariantArg) (c : Option ColorType) (g : Bool) :
    lookupParam (Games.export_games_of_a_user_request
          username s u l (some opponent) ra v c an g).params "vs"
        = some (ParamValue.str opponent) ∧
      lookupParam (Games.export_games_of_a_user_request
          username s u l none ra v c an g).params "vs"
        = none := by
  constructor <;>
    simp [Games.export_games_of_a_user_request,
      Games.export_games_of_a_user_parameters, lookupParam]

/-- C6 counterexample: at the concrete call
export_games_of_a_user("amasend") with every optional filter absent, the
parameter map's key list is exactly the fourteen keys below — the key
literate is not among them (its lookup yields none), so the map does not
contain the seven fixed inclusion flags moves, pgnInJson, tags, clocks,
evals, opening, literate: only six of them are present. -/
theorem C6_counterexample_literate_flag_absent :
    (Games.export_games_of_a_user_request
          "amasend" none none none none none none none none false).params.map Prod.fst
        = ["since", "until", "max", "rated", "perfType", "color", "analysed",
           "ongoing", "moves", "pgnInJson", "tags", "clocks", "evals", "opening"] ∧
      lookupParam (Games.export_games_of_a_user_request
          "amasend" none none none none none none none none false).params "literate"
        = none := by
  refine ⟨rfl, rfl⟩

/-- C6 (amended): for every call, the parameter map of
export_games_of_a_user contains the key ongoing bound to the
boolean-as-text value json.dumps produces ("true" or "false"), and
contains the six fixed inclusion flags moves, pgnInJson, tags, clocks,
evals, opening (literate is not sent by this endpoint). -/
theorem C6_ongoing_bool_text_and_six_fixed_flags
    (username : String) (s u l : Option Int) (vs : Option String)
    (ra an : Option Bool) (v : Option VariantArg) (c : Option ColorType)
    (g : Bool) :
    lookupParam (Games.export_games_of_a_user_request
          username s u l vs ra v c an g).params "ongoing"
        = some (ParamValue.str (json_dumps_bool g)) ∧
      lookupParam (Games.export_games_of_a_user_request
          username s u l vs ra v c an g).params "moves"
        = some (ParamValue.str "true") ∧
      lookupParam (Games.export_games_of_a_user_request
          username s u l vs ra v c an g).params "pgnInJson"
        = some (ParamValue.str "false") ∧
      lookupParam (Games.export_games_of_a_user_request
          username s u l vs ra v c an g).params "tags"
        = some (ParamValue.str "true") ∧
      lookupParam (Games.export_games_of_a_user_request
          username s u l vs ra v c an g).params "clocks"
        = some (ParamValue.str "true") ∧
      lookupParam (Games.export_games_of_a_user_request
          username s u l vs ra v c an g).params "evals"
        = some (ParamValue.str "true") ∧
      lookupParam (Games.export_games_of_a_user_request
          username s u l vs ra v c an g).params "opening"
        = some (ParamValue.str "true") := by
  cases vs <;>
    simp [Games.export_games_of_a_user_request,
      Games.export_games_of_a_user_parameters, lookupParam]

/-- C7: for every call, export_games_of_a_user returns exactly the
Response of the streaming transport call request_stream applied to the
one user-scoped GET request — whatever the single-shot request function
does (it is quantified independently, so it is never invoked); the
request's URL is the user URL template with the username substituted and
its method is GET. -/
theorem C7_streaming_transport_used_once
    (single shot : HttpRequest → Response)
    (username : String) (s u l : Option Int) (vs : Option String)
    (ra an : Option Bool) (v : Option VariantArg) (c : Option ColorType)
    (g : Bool) :
    Games.export_games_of_a_user ⟨single, shot⟩ username s u l vs ra v c an g
        = shot (Games.export_games_of_a_user_request
            username s u l vs ra v c an g) ∧
      (Games.export_games_of_a_user_request
          username s u l vs ra v c an g).url = "games/user/" ++ username ∧
      (Games.export_games_of_a_user_request
          username s u l vs ra v c an g).method = RequestMethods.GET :=
  ⟨rfl, rfl, rfl⟩

/-- C8: for every game_id, export_one_game hands the single-shot
transport call exactly one request whose method is GET, whose URL is the
export-one-game template with gameId substituted, whose header map is
exactly Content-Type: application/json, and whose parameters are the
fixed seven-flag map; the transport's Response is returned unchanged. -/
theorem C8_export_one_game_request_shape
    (single shot : HttpRequest → Response) (game_id : String) :
    Games.export_one_game ⟨single, shot⟩ game_id
        = single (⟨RequestMethods.GET,
            "game/export/" ++ game_id,
            [("Content-Type", "application/json")],
            Games.export_one_game_parameters⟩ : HttpRequest) :=
  rfl

/-- C9: neither export_one_game nor export_games_of_a_user validates its
identifier, retries, or translates errors: for every Response the
transport produces — in particular one whose status is FAILURE or ERROR —
and every string game_id and username, that Response is returned to the
caller unchanged. -/
theorem C9_transport_response_returned_unchanged
    (resp : Response) (game_id username : String) (s u l : Option Int)
    (vs : Option String) (ra an : Option Bool) (v : Option VariantArg)
    (c : Option ColorType) (g : Bool) :
    Games.export_one_game ⟨fun _x => resp, fun _x => resp⟩ game_id = resp ∧
      Games.export_games_of_a_user ⟨fun _x => resp, fun _x => resp⟩
          username s u l vs ra v c an g = resp ∧
      Games.export_one_game
          ⟨fun _x => ⟨StatusTypes.FAILURE, ⟨StatusTypes.FAILURE, "error details"⟩⟩,
           fun _x => resp⟩ game_id
        = ⟨StatusTypes.FAILURE, ⟨StatusTypes.FAILURE, "error details"⟩⟩ :=
  ⟨rfl, rfl, rfl⟩

/-- C10: in export_games_of_a_user, when the color argument is absent the
key color is still present in the parameter map, bound to the sentinel
string "null"; when a color is supplied the key carries that member's
string value instead. -/
theorem C10_color_sentinel_when_absent
    (username : String) (s u l : Option Int) (vs : Option String)
    (ra an : Option Bool) (v : Option VariantArg) (g : Bool) (c : ColorType) :
    lookupParam (Games.export_games_of_a_user_request
          username s u l vs ra v none an g).params "color"
        = some (ParamValue.str "null") ∧
      lookupParam (Games.export_games_of_a_user_request
          username s u l vs ra v (some c) an g).params "color"
        = some (ParamValue.str c.value) := by
  cases vs <;>
    simp [Games.export_games_of_a_user_request,
      Games.export_games_of_a_user_parameters, lookupParam]

end LichessSDK
